import Mathlib

/-
  Verification development for the snack-bot repository.

  The definitions below are shallow embeddings of the TypeScript source:
    - apps/vendor-agent/src/a2a_server/A2AServer.ts        (standard vendor)
    - the premium vendor server A2AServerPremium            (unnamed source file)
    - apps/vendor-agent ap2_acceptor AP2Acceptor            (mandates and payments)
    - apps/office-agent/src/a2a/A2AClient.ts               (multi-vendor comparator)

  Modelling conventions:
    - machine numbers are Nat / Int / Rat; Math.floor over a rational is Int.floor.
      For the magnitudes occurring here the double computations of the source
      (total * 0.9, total * 0.85, total * (30/100)) agree with the exact
      rational value, so Int.floor of the exact product is the faithful model.
    - JavaScript truthiness of a possibly-absent field is modelled explicitly:
      a missing field is none, and a present empty string, or a present zero
      number, is falsy exactly as in the source.
    - Map objects are association lists; Map.set is setEntry below.
    - Date values are epoch milliseconds (Nat).
-/

deriving instance DecidableEq for Except

/-- JavaScript truthiness for an optional string field: undefined and the
empty string are falsy. -/
def jsTruthyS (o : Option String) : Bool :=
  match o with
  | none => false
  | some s => !(s == "")

/-- The expression targetTotal or-else currentTotal from the source
(JS operator with two bars): a missing or zero targetTotal falls back to
currentTotal. -/
def jsOrQ (t : Option ℚ) (c : ℚ) : ℚ :=
  match t with
  | none => c
  | some v => if v = 0 then c else v

/-- Map.set on an association list: replace the binding when the key is
present, append it otherwise. -/
def setEntry {κ α : Type} [BEq κ] (k : κ) (v : α) : List (κ × α) → List (κ × α)
  | [] => [(k, v)]
  | (k0, v0) :: rest => if k0 == k then (k, v) :: rest else (k0, v0) :: setEntry k v rest

/-- Catalog item, from the CatalogItem interface.  The standard vendor
omits the vendor field; it is modelled as an Option. -/
structure CatalogItem where
  sku : String
  name : String
  price : Nat
  category : String
  dietary : List String
  minQuantity : Option Nat
  vendor : Option String
deriving DecidableEq

/-- One requested line of a quote request. -/
structure LineItemReq where
  sku : String
  quantity : Nat
deriving DecidableEq

/-- Priced line of a quote, from the QuoteLineItem interface. -/
structure QuoteLineItem where
  sku : String
  name : String
  quantity : Nat
  unitPrice : Nat
  totalPrice : Nat
deriving DecidableEq

/-- Split payment terms of a premium quote. -/
structure PaymentTerms where
  initialPayment : ℚ
  deliveryPayment : ℚ
  initialPercentage : ℚ
deriving DecidableEq

/-- Standard-vendor quote, from the Quote interface of A2AServer. -/
structure QuoteS where
  quoteId : String
  total : ℚ
  lineItems : List QuoteLineItem
  deliveryWindow : String
  expires : Nat
deriving DecidableEq

/-- Premium-vendor quote, from the Quote interface of A2AServerPremium. -/
structure QuoteP where
  quoteId : String
  total : ℚ
  lineItems : List QuoteLineItem
  deliveryWindow : String
  expires : Nat
  vendor : String
  paymentTerms : PaymentTerms
deriving DecidableEq

/-- The quote-creation loop of createQuote: resolve each requested line
against the catalog, failing on the first unknown SKU.  The effective
quantity is Math.max of the request and the falsy-defaulted catalog
minimum, and the line total is price times quantity. -/
def buildLineItems (catalog : List CatalogItem) : List LineItemReq → Except String (List QuoteLineItem)
  | [] => Except.ok []
  | r :: rest =>
    match catalog.find? (fun c => c.sku == r.sku) with
    | none => Except.error ("Unknown SKU: " ++ r.sku)
    | some c =>
      let quantity := max r.quantity (match c.minQuantity with
        | none => 1
        | some m => if m = 0 then 1 else m)
      match buildLineItems catalog rest with
      | Except.error e => Except.error e
      | Except.ok lis =>
        Except.ok ({ sku := c.sku, name := c.name, quantity := quantity,
                     unitPrice := c.price, totalPrice := c.price * quantity } :: lis)

/-- Sum of the line totals, as accumulated by the quote-creation loop and
recomputed by negotiate via reduce. -/
def sumTot (lis : List QuoteLineItem) : Nat :=
  (lis.map (fun li => li.totalPrice)).sum

/-- createQuote of the standard vendor: build the line items, then apply
the bulk discount (total greater than 500 means Math.floor of total times
0.9), and stamp a two-hour expiry. -/
def createQuoteS (catalog : List CatalogItem) (items : List LineItemReq)
    (quoteId deliveryWindow : String) (now : Nat) : Except String QuoteS :=
  match buildLineItems catalog items with
  | Except.error e => Except.error e
  | Except.ok lineItems =>
    let s := sumTot lineItems
    let total : ℚ := if 500 < s then ((⌊(s : ℚ) * (9 / 10)⌋ : ℤ) : ℚ) else (s : ℚ)
    Except.ok { quoteId := quoteId, total := total, lineItems := lineItems,
                deliveryWindow := deliveryWindow, expires := now + 7200000 }

/-- createQuote of the premium vendor: threshold 400, retention factor
0.85, split payment terms at 30 percent upfront, three-hour expiry. -/
def createQuoteP (catalog : List CatalogItem) (items : List LineItemReq)
    (quoteId deliveryWindow : String) (now : Nat) : Except String QuoteP :=
  match buildLineItems catalog items with
  | Except.error e => Except.error e
  | Except.ok lineItems =>
    let s := sumTot lineItems
    let total : ℚ := if 400 < s then ((⌊(s : ℚ) * (85 / 100)⌋ : ℤ) : ℚ) else (s : ℚ)
    let initialPayment : ℚ := ((⌊total * (30 / 100)⌋ : ℤ) : ℚ)
    Except.ok { quoteId := quoteId, total := total, lineItems := lineItems,
                deliveryWindow := deliveryWindow, expires := now + 10800000,
                vendor := "Premium Foods Co.",
                paymentTerms := { initialPayment := initialPayment,
                                  deliveryPayment := total - initialPayment,
                                  initialPercentage := 30 } }

/-- The standard vendor catalog from initializeCatalog. -/
def standardCatalog : List CatalogItem :=
  [ { sku := "snack-veg-001", name := "Mixed Vegetable Spring Rolls (20pc)",
      price := 120, category := "hot-snacks", dietary := ["vegetarian", "vegan"],
      minQuantity := some 20, vendor := none },
    { sku := "snack-fruit-001", name := "Fresh Fruit Platter (serves 10)",
      price := 80, category := "fresh", dietary := ["vegan", "gluten-free", "nut-allergy"],
      minQuantity := some 1, vendor := none },
    { sku := "snack-nuts-001", name := "Mixed Nuts & Dried Fruits (1lb)",
      price := 45, category := "snacks", dietary := ["vegan", "gluten-free"],
      minQuantity := some 1, vendor := none },
    { sku := "snack-sandwich-001", name := "Mini Sandwiches Variety Pack (24pc)",
      price := 150, category := "sandwiches", dietary := [],
      minQuantity := some 24, vendor := none },
    { sku := "snack-cookies-001", name := "Assorted Cookies (2 dozen)",
      price := 60, category := "sweets", dietary := ["vegetarian"],
      minQuantity := some 24, vendor := none },
    { sku := "beverage-coffee-001", name := "Coffee Service Setup (serves 15)",
      price := 40, category := "beverages", dietary := ["vegan", "gluten-free"],
      minQuantity := some 1, vendor := none },
    { sku := "snack-gf-001", name := "Gluten-Free Crackers & Cheese (serves 8)",
      price := 75, category := "specialty", dietary := ["vegetarian", "gluten-free"],
      minQuantity := some 1, vendor := none } ]

/-- The premium vendor catalog from initializePremiumCatalog. -/
def premiumCatalog : List CatalogItem :=
  [ { sku := "premium-gourmet-001", name := "Artisan Cheese & Charcuterie Board (serves 15)",
      price := 280, category := "gourmet", dietary := ["vegetarian"],
      minQuantity := some 1, vendor := some "Premium Foods Co." },
    { sku := "premium-healthy-001", name := "Organic Superfood Smoothie Bowls (12pc)",
      price := 180, category := "healthy", dietary := ["vegan", "gluten-free", "organic"],
      minQuantity := some 12, vendor := some "Premium Foods Co." },
    { sku := "premium-sushi-001", name := "Fresh Sushi Platter Deluxe (40pc)",
      price := 320, category := "sushi", dietary := [],
      minQuantity := some 40, vendor := some "Premium Foods Co." },
    { sku := "premium-salad-001", name := "Mediterranean Quinoa Salad Bowls (10pc)",
      price := 150, category := "salads", dietary := ["vegetarian", "gluten-free"],
      minQuantity := some 10, vendor := some "Premium Foods Co." },
    { sku := "premium-pastry-001", name := "French Pastry Selection (2 dozen)",
      price := 120, category := "pastries", dietary := ["vegetarian"],
      minQuantity := some 24, vendor := some "Premium Foods Co." },
    { sku := "premium-coffee-001", name := "Premium Coffee Bar Service (serves 20)",
      price := 85, category := "beverages", dietary := ["vegan", "gluten-free"],
      minQuantity := some 1, vendor := some "Premium Foods Co." },
    { sku := "premium-wrap-001", name := "Gourmet Wrap Platter (16pc assorted)",
      price := 190, category := "wraps", dietary := ["vegetarian"],
      minQuantity := some 16, vendor := some "Premium Foods Co." } ]

/-- A quantity adjustment inside a counter-offer. -/
structure Adjustment where
  sku : String
  newQuantity : Nat
deriving DecidableEq

/-- Apply one adjustment: find the first line item with the matching SKU
and replace its quantity, recomputing the line total from the unit price.
Mirrors lineItems.find followed by in-place mutation in negotiate. -/
def applyAdjustment : List QuoteLineItem → Adjustment → List QuoteLineItem
  | [], _ => []
  | li :: rest, a =>
    if li.sku == a.sku then
      { li with quantity := a.newQuantity, totalPrice := li.unitPrice * a.newQuantity } :: rest
    else
      li :: applyAdjustment rest a

/-- Apply all adjustments of a counter-offer in order. -/
def adjustAll (lis : List QuoteLineItem) (as' : List Adjustment) : List QuoteLineItem :=
  as'.foldl applyAdjustment lis

/-- The acceptance test of negotiate: discountPercentage is
(currentTotal - requestedTotal) / currentTotal and the offer is accepted
when it is at most maxDiscount.  When currentTotal is zero the source
divides by zero in IEEE arithmetic: the quotient is minus infinity when
requestedTotal is positive (accepted), NaN when it is zero (rejected), and
plus infinity when it is negative (rejected). -/
def negotiationAccepts (c r maxD : ℚ) : Bool :=
  if c = 0 then decide (0 < r) else decide ((c - r) / c ≤ maxD)

/-- Outcome of a standard-vendor negotiation. -/
inductive NegoResultS where
  | quoteNotFound : NegoResultS
  | rejected : NegoResultS
  | accepted : QuoteS → NegoResultS
deriving DecidableEq

/-- Outcome of a premium-vendor negotiation. -/
inductive NegoResultP where
  | quoteNotFound : NegoResultP
  | rejected : NegoResultP
  | accepted : QuoteP → NegoResultP
deriving DecidableEq

/-- negotiate of the standard vendor (maxDiscount 0.15): look up the
quote, compute the requested total with falsy fallback, accept or reject;
on acceptance apply quantity adjustments (if any were supplied) and
recompute the total as the sum of line totals, then store the revised
quote under the same id. -/
def negotiateStd (quotes : List (String × QuoteS)) (quoteId : String)
    (targetTotal : Option ℚ) (adjustedItems : List Adjustment) :
    NegoResultS × List (String × QuoteS) :=
  match quotes.lookup quoteId with
  | none => (NegoResultS.quoteNotFound, quotes)
  | some q =>
    let c := q.total
    let r := jsOrQ targetTotal c
    if negotiationAccepts c r (15 / 100) then
      let q1 :=
        if adjustedItems.isEmpty then { q with total := r }
        else
          let lis := adjustAll q.lineItems adjustedItems
          { q with total := (sumTot lis : ℚ), lineItems := lis }
      (NegoResultS.accepted q1, setEntry quoteId q1 quotes)
    else (NegoResultS.rejected, quotes)

/-- negotiate of the premium vendor (maxDiscount 0.08): as the standard
one, and additionally recompute the split payment terms from the revised
total using the existing initial percentage. -/
def negotiatePrem (quotes : List (String × QuoteP)) (quoteId : String)
    (targetTotal : Option ℚ) (adjustedItems : List Adjustment) :
    NegoResultP × List (String × QuoteP) :=
  match quotes.lookup quoteId with
  | none => (NegoResultP.quoteNotFound, quotes)
  | some q =>
    let c := q.total
    let r := jsOrQ targetTotal c
    if negotiationAccepts c r (8 / 100) then
      let q1 :=
        if adjustedItems.isEmpty then { q with total := r }
        else
          let lis := adjustAll q.lineItems adjustedItems
          { q with total := (sumTot lis : ℚ), lineItems := lis }
      let ip : ℚ := ((⌊q1.total * (q.paymentTerms.initialPercentage / 100)⌋ : ℤ) : ℚ)
      let q2 := { q1 with paymentTerms := { q.paymentTerms with
                    initialPayment := ip, deliveryPayment := q1.total - ip } }
      (NegoResultP.accepted q2, setEntry quoteId q2 quotes)
    else (NegoResultP.rejected, quotes)

/-- Cart produced by the standard lockCart. -/
structure CartS where
  cartId : String
  quoteId : String
  total : ℚ
  lineItems : List QuoteLineItem
  deliveryWindow : String
  lockedUntil : Nat
  status : String
deriving DecidableEq

/-- lockCart of the standard vendor: look up the quote and build a locked
cart valid for fifteen minutes.  Note that the source performs no check of
the quote expiry timestamp. -/
def lockCartS (quotes : List (String × QuoteS)) (quoteId cartId : String)
    (now : Nat) : Except String CartS :=
  match quotes.lookup quoteId with
  | none => Except.error ("Quote not found")
  | some q =>
    Except.ok { cartId := cartId, quoteId := quoteId, total := q.total,
                lineItems := q.lineItems, deliveryWindow := q.deliveryWindow,
                lockedUntil := now + 900000, status := "locked" }

/-- Quote payload returned by one vendor to the comparator; only the
fields the comparison uses are carried. -/
structure QuoteResp where
  quoteId : String
  total : ℚ
deriving DecidableEq

/-- One vendor together with the outcome of its quote.create call.  The
concurrent Promise.all of the source merges results only after all have
settled; the list here is those settled results. -/
structure VendorOutcome where
  name : String
  baseUrl : String
  result : Except String QuoteResp
deriving DecidableEq

/-- Quote entry of the allQuotes array in createQuoteFromAllVendors.  A
failed vendor contributes an entry with its error recorded; the source
marks it additionally with an Infinity total, which the model subsumes in
the err flag (both are tested together by the validity filter). -/
structure VendorQuote where
  quoteId : String
  total : ℚ
  vendor : String
  baseUrl : String
  err : Option String
deriving DecidableEq

/-- Build the allQuotes entry for one vendor outcome. -/
def toVendorQuote (v : VendorOutcome) : VendorQuote :=
  match v.result with
  | Except.ok q =>
    { quoteId := q.quoteId, total := q.total, vendor := v.name,
      baseUrl := v.baseUrl, err := none }
  | Except.error e =>
    { quoteId := "failed_" ++ v.name, total := 0, vendor := v.name,
      baseUrl := v.baseUrl, err := some e }

/-- The reduce step selecting the cheaper quote (strict comparison, so
the earlier quote wins ties). -/
def pickBetter (prev cur : VendorQuote) : VendorQuote :=
  if cur.total < prev.total then cur else prev

/-- Result record of the multi-vendor comparison. -/
structure Comparison where
  bestOverallQuote : VendorQuote
  bestBudgetQuote : VendorQuote
  allQuotes : List VendorQuote
  maxSavings : ℚ
  percentageSaved : ℚ
  recommendedVendor : String
deriving DecidableEq

/-- createQuoteFromAllVendors of A2AClient: collect every vendor outcome,
filter out failed quotes, fail when none is valid, otherwise select the
minimum-total quote by reduce, and report savings against the maximum
valid total. -/
def createQuoteFromAllVendors (vendors : List VendorOutcome) : Except String Comparison :=
  let allQuotes := vendors.map toVendorQuote
  match allQuotes.filter (fun q => q.err.isNone) with
  | [] => Except.error ("No valid quotes received from any vendor")
  | v :: vs =>
    let best := vs.foldl pickBetter v
    let maxTotal := vs.foldl (fun acc q => max acc q.total) v.total
    let maxSavings := maxTotal - best.total
    let percentageSaved := if 0 < maxSavings then maxSavings / maxTotal * 100 else 0
    Except.ok { bestOverallQuote := best, bestBudgetQuote := best,
                allQuotes := allQuotes, maxSavings := maxSavings,
                percentageSaved := percentageSaved, recommendedVendor := best.vendor }

/-- Mandate status, from the Mandate interface. -/
inductive MStatus where
  | active : MStatus
  | used : MStatus
  | expired : MStatus
deriving DecidableEq

/-- Payment status, from the Payment interface. -/
inductive PStatus where
  | pending : PStatus
  | processing : PStatus
  | completed : PStatus
  | failed : PStatus
  | cancelled : PStatus
deriving DecidableEq

/-- Stored mandate, from the Mandate interface of AP2Acceptor.  The ttl
is the epoch-millisecond instant new Date(ttl) denotes. -/
structure Mandate where
  mandateId : String
  cartId : String
  payerRef : String
  amount : ℚ
  currency : String
  ttl : Nat
  challengeData : String
  created : Nat
  status : MStatus
deriving DecidableEq

/-- Stored payment, from the Payment interface of AP2Acceptor. -/
structure Payment where
  paymentId : String
  mandateId : String
  status : PStatus
  amount : ℚ
  currency : String
  created : Nat
  updated : Nat
  transactionRef : String
deriving DecidableEq

/-- The two in-memory maps of AP2Acceptor. -/
structure AP2State where
  mandates : List (String × Mandate)
  payments : List (String × Payment)
deriving DecidableEq

/-- The challenge payload of a mandate: the source serialises the tuple
of mandate fields with JSON.stringify and base64-encodes it; the model
uses a deterministic textual encoding of the same tuple (the claims use
only that it is a fixed string stored with the mandate). -/
def mkChallenge (mandateId cartId payerRef : String) (amount : ℚ)
    (currency : String) (ttl timestamp : Nat) : String :=
  mandateId ++ "|" ++ cartId ++ "|" ++ payerRef ++ "|" ++
    toString amount.num ++ "/" ++ toString amount.den ++ "|" ++
    currency ++ "|" ++ toString ttl ++ "|" ++ toString timestamp

/-- Outcome of createMandate. -/
inductive CreateResult where
  | missingFields : CreateResult
  | created : Mandate → CreateResult
deriving DecidableEq

/-- createMandate of AP2Acceptor: reject with the missing-fields error
when any of cartId, payerRef, amount, ttl is falsy (absent, or an empty
string, or zero); otherwise store a fresh active mandate carrying a
challenge payload and answer with its public fields.  The scheduled
expiration timer it also registers is modelled as the separate
expireMandate transition. -/
def createMandate (cartId payerRef : Option String) (amount : Option ℚ)
    (currency : Option String) (ttl : Option Nat) (mandateId : String)
    (now : Nat) (st : AP2State) : CreateResult × AP2State :=
  match cartId, payerRef, amount, ttl with
  | some c, some p, some a, some t =>
    if c = "" ∨ p = "" ∨ a = 0 ∨ t = 0 then (CreateResult.missingFields, st)
    else
      let cur := match currency with
        | none => "USD"
        | some x => x
      let m : Mandate :=
        { mandateId := mandateId, cartId := c, payerRef := p, amount := a,
          currency := cur, ttl := t,
          challengeData := mkChallenge mandateId c p a cur t now,
          created := now, status := MStatus.active }
      (CreateResult.created m, { st with mandates := setEntry mandateId m st.mandates })
  | _, _, _, _ => (CreateResult.missingFields, st)

/-- Outcome of processPayment, one constructor per response of the
source; the paid constructor carries the fields of the 200 response. -/
inductive PayResult where
  | invalidRequest : PayResult
  | mandateNotFound : PayResult
  | invalidMandateState : PayResult
  | mandateExpired : PayResult
  | invalidSignature : PayResult
  | paid : String → PStatus → ℚ → String → PayResult
deriving DecidableEq

/-- processPayment of AP2Acceptor.  The checks run in source order:
falsy request fields, unknown mandate, non-active status, expired ttl
(which also flips the stored mandate to expired), signature verification
(abstracted as the verify parameter, as the source delegates to
nacl.sign.detached.verify), and finally the success path marking the
mandate used and storing a processing payment with a transaction
reference. -/
def processPayment (verify : String → String → String → Bool)
    (mandateId signature publicKey : Option String) (now : Nat)
    (paymentId txnRef : String) (st : AP2State) : PayResult × AP2State :=
  match mandateId, signature, publicKey with
  | some mid, some sg, some pk =>
    if mid = "" ∨ sg = "" ∨ pk = "" then (PayResult.invalidRequest, st)
    else
      match st.mandates.lookup mid with
      | none => (PayResult.mandateNotFound, st)
      | some m =>
        if m.status ≠ MStatus.active then (PayResult.invalidMandateState, st)
        else if m.ttl < now then
          (PayResult.mandateExpired,
           { st with mandates := setEntry mid { m with status := MStatus.expired } st.mandates })
        else if verify m.challengeData sg pk = false then (PayResult.invalidSignature, st)
        else
          (PayResult.paid paymentId PStatus.processing m.amount txnRef,
           { st with mandates := setEntry mid { m with status := MStatus.used } st.mandates,
                     payments := setEntry paymentId
                       { paymentId := paymentId, mandateId := mid, status := PStatus.processing,
                         amount := m.amount, currency := m.currency, created := now,
                         updated := now, transactionRef := txnRef } st.payments })
  | _, _, _ => (PayResult.invalidRequest, st)

/-- The body of the expiration timer scheduled by scheduleExpiration:
flip the mandate to expired only when it is still active at firing
time. -/
def expireMandate (mandateId : String) (st : AP2State) : AP2State :=
  match st.mandates.lookup mandateId with
  | none => st
  | some m =>
    if m.status = MStatus.active then
      { st with mandates := setEntry mandateId { m with status := MStatus.expired } st.mandates }
    else st

/-- One step of the settlement store: a mandate creation under a freshly
generated id, a payment attempt under a freshly generated payment id, or
a firing of the expiration timer.  The freshness side conditions reflect
the generated unique identifiers of the source. -/
inductive StepR : AP2State → AP2State → Prop where
  | create : ∀ (cartId payerRef : Option String) (amount : Option ℚ)
      (currency : Option String) (ttl : Option Nat) (mandateId : String)
      (now : Nat) (st : AP2State),
      st.mandates.lookup mandateId = none →
      StepR st (createMandate cartId payerRef amount currency ttl mandateId now st).2
  | pay : ∀ (verify : String → String → String → Bool)
      (mandateId signature publicKey : Option String) (now : Nat)
      (paymentId txnRef : String) (st : AP2State),
      st.payments.lookup paymentId = none →
      StepR st (processPayment verify mandateId signature publicKey now paymentId txnRef st).2
  | timer : ∀ (mandateId : String) (st : AP2State),
      StepR st (expireMandate mandateId st)

/-- The empty settlement store the process boots with. -/
def initAP2 : AP2State := { mandates := [], payments := [] }

/-- States of the settlement store reachable from boot. -/
def Reach (s : AP2State) : Prop := Relation.ReflTransGen StepR initAP2 s

/-- Number of stored payments consuming the given mandate. -/
def countFor (mandateId : String) (st : AP2State) : Nat :=
  (st.payments.filter (fun e => e.2.mandateId == mandateId)).length

/-- The mandate-store invariant of claim C2: every stored mandate has one
of the three statuses, is consumed by at most one payment, and an active
mandate is consumed by none; moreover every stored payment points at a
stored mandate that is no longer active. -/
def InvC2 (st : AP2State) : Prop :=
  (∀ mid m, st.mandates.lookup mid = some m →
    (m.status = MStatus.active ∨ m.status = MStatus.used ∨ m.status = MStatus.expired) ∧
    countFor mid st ≤ 1 ∧
    (m.status = MStatus.active → countFor mid st = 0)) ∧
  (∀ e, e ∈ st.payments →
    ∃ m, st.mandates.lookup e.2.mandateId = some m ∧ m.status ≠ MStatus.active)

/-
  Reference-semantics model of the premium vendor quote and cart stores.

  In the source, lockCart builds the cart with lineItems := quote.lineItems,
  which copies the array REFERENCE, not the array; and negotiate builds the
  revised quote by a shallow spread of the stored quote and then mutates the
  elements of that same array in place.  To make this observable the model
  carries the line-item arrays in a separate heap (arrays, addressed by Nat)
  and stores only the address in quotes and carts.  Payment-terms objects are
  modelled by value because negotiate replaces them with a fresh object
  rather than mutating them.
-/

/-- Premium quote record holding the heap address of its line-item
array. -/
structure HQuote where
  quoteId : String
  total : ℚ
  itemsRef : Nat
  deliveryWindow : String
  expires : Nat
  vendor : String
  paymentTerms : PaymentTerms
deriving DecidableEq

/-- Premium cart record; itemsRef is the address copied from the quote
at lock time. -/
structure HCart where
  cartId : String
  quoteId : String
  total : ℚ
  itemsRef : Nat
  deliveryWindow : String
  lockedUntil : Nat
  status : String
  vendor : String
  paymentTerms : PaymentTerms
deriving DecidableEq

/-- Stores of the premium vendor process: the quotes map, the carts map,
and the heap of line-item arrays they point into. -/
structure HeapState where
  quotes : List (String × HQuote)
  carts : List (String × HCart)
  arrays : List (Nat × List QuoteLineItem)
deriving DecidableEq

/-- lockCart of the premium vendor over the reference model: copy total,
delivery window, vendor and payment terms, set a twenty-minute lock, and
copy the line-items array address (the aliasing of the source). -/
def lockCartH (st : HeapState) (quoteId cartId : String) (now : Nat) :
    Except String HCart × HeapState :=
  match st.quotes.lookup quoteId with
  | none => (Except.error ("Premium quote not found"), st)
  | some q =>
    let cart : HCart :=
      { cartId := cartId, quoteId := quoteId, total := q.total,
        itemsRef := q.itemsRef, deliveryWindow := q.deliveryWindow,
        lockedUntil := now + 1200000, status := "locked",
        vendor := q.vendor, paymentTerms := q.paymentTerms }
    (Except.ok cart, { st with carts := setEntry cartId cart st.carts })

/-- Outcome of a premium negotiation over the reference model. -/
inductive NegoResultH where
  | quoteNotFound : NegoResultH
  | rejected : NegoResultH
  | accepted : NegoResultH
deriving DecidableEq

/-- negotiate of the premium vendor over the reference model: on
acceptance with adjustments the shared line-item array is updated at its
address, so every holder of that address observes the new quantities; the
revised quote record (a shallow copy in the source) is stored under the
same id with recomputed payment terms. -/
def negotiateH (st : HeapState) (quoteId : String) (targetTotal : Option ℚ)
    (adjustedItems : List Adjustment) : NegoResultH × HeapState :=
  match st.quotes.lookup quoteId with
  | none => (NegoResultH.quoteNotFound, st)
  | some q =>
    let c := q.total
    let r := jsOrQ targetTotal c
    if negotiationAccepts c r (8 / 100) then
      let arr := (st.arrays.lookup q.itemsRef).getD []
      let stepped :=
        if adjustedItems.isEmpty then (r, st.arrays)
        else
          let arr2 := adjustAll arr adjustedItems
          ((sumTot arr2 : ℚ), setEntry q.itemsRef arr2 st.arrays)
      let ip : ℚ := ((⌊stepped.1 * (q.paymentTerms.initialPercentage / 100)⌋ : ℤ) : ℚ)
      let q2 := { q with
        total := stepped.1,
        paymentTerms := { q.paymentTerms with
          initialPayment := ip, deliveryPayment := stepped.1 - ip } }
      (NegoResultH.accepted,
       { st with quotes := setEntry quoteId q2 st.quotes, arrays := stepped.2 })
    else (NegoResultH.rejected, st)

/-- The line items a locked cart presents: its stored address
dereferenced through the heap. -/
def readCartItems (cartId : String) (st : HeapState) : Option (List QuoteLineItem) :=
  match st.carts.lookup cartId with
  | none => none
  | some cart => st.arrays.lookup cart.itemsRef

/-- The effect of a counter-offer on one line item when every SKU occurs
at most once: the unique matching adjustment, if any, replaces the
quantity and recomputes the line total from the unit price. -/
def adjustFun (as' : List Adjustment) (li : QuoteLineItem) : QuoteLineItem :=
  match as'.find? (fun a => a.sku == li.sku) with
  | some a => { li with quantity := a.newQuantity, totalPrice := li.unitPrice * a.newQuantity }
  | none => li

/-
  Concrete instances used by the witnesses and counterexamples below.
-/

/-- Signature oracle accepting everything (stands for a caller holding
the matching keypair). -/
def verifyAlways : String → String → String → Bool := fun _ _ _ => true

/-- An active mandate whose ttl (epoch 100) is already in the past at
payment time (epoch 200). -/
def mandateExp : Mandate :=
  { mandateId := "m1", cartId := "c1", payerRef := "alice", amount := 50,
    currency := "USD", ttl := 100, challengeData := "ch", created := 0,
    status := MStatus.active }

/-- Settlement store holding just the stale mandate. -/
def stExp : AP2State := { mandates := [("m1", mandateExp)], payments := [] }

/-- The mandate stored by the concrete creation step of the C2 witness. -/
def mandateW2 : Mandate :=
  { mandateId := "m2", cartId := "c1", payerRef := "bob", amount := 25,
    currency := "USD", ttl := 500,
    challengeData := mkChallenge ("m2") ("c1") ("bob") 25 ("USD") 500 0,
    created := 0, status := MStatus.active }

/-- Settlement store reached from boot by one mandate creation. -/
def stW2 : AP2State :=
  (createMandate (some ("c1")) (some ("bob")) (some 25) none (some 500) ("m2") 0 initAP2).2

/-- Quote produced for twenty spring-roll batches: line sum 2400 exceeds
the 500 threshold, so the discounted total is 2160. -/
def qVeg : QuoteS :=
  { quoteId := "qv", total := 2160,
    lineItems := [ { sku := "snack-veg-001", name := "Mixed Vegetable Spring Rolls (20pc)",
                     quantity := 20, unitPrice := 120, totalPrice := 2400 } ],
    deliveryWindow := "", expires := 7200000 }

/-- Quote for fifteen coffee setups: line sum 600 exceeds 500, so the
discounted total is 540. -/
def qCoffee : QuoteS :=
  { quoteId := "qc", total := 540,
    lineItems := [ { sku := "beverage-coffee-001", name := "Coffee Service Setup (serves 15)",
                     quantity := 15, unitPrice := 40, totalPrice := 600 } ],
    deliveryWindow := "", expires := 7200000 }

/-- One-item catalog matching the scenario of claim C9: unit price 10,
minimum quantity 20. -/
def catX : List CatalogItem :=
  [ { sku := "X", name := "Item X", price := 10, category := "misc",
      dietary := [], minQuantity := some 20, vendor := none } ]

/-- Quote the scenario of claim C9 expects: requested quantity 5 is
clamped up to 20, line total 200. -/
def qX : QuoteS :=
  { quoteId := "qx", total := 200,
    lineItems := [ { sku := "X", name := "Item X", quantity := 20,
                     unitPrice := 10, totalPrice := 200 } ],
    deliveryWindow := "", expires := 7200000 }

/-- Stored quote with total 100 used to refute the nullish reading of
the counter-offer fallback. -/
def quoteCex : QuoteS :=
  { quoteId := "q1", total := 100, lineItems := [], deliveryWindow := "", expires := 0 }

/-- Line item of the C4 witness quote. -/
def liW : QuoteLineItem :=
  { sku := "a", name := "item a", quantity := 2, unitPrice := 10, totalPrice := 20 }

/-- Witness quote for the amended negotiation claim. -/
def qW : QuoteS :=
  { quoteId := "qw", total := 20, lineItems := [liW], deliveryWindow := "", expires := 0 }

/-- Witness quote store for the amended negotiation claim. -/
def storeW : List (String × QuoteS) := [("qw", qW)]

/-- Two settled vendor outcomes with totals 300 and 120. -/
def vendU : List VendorOutcome :=
  [ { name := "VendorA", baseUrl := "u1", result := Except.ok { quoteId := "qa", total := 300 } },
    { name := "VendorB", baseUrl := "u2", result := Except.ok { quoteId := "qb", total := 120 } } ]

/-- Comparison the comparator produces on vendU. -/
def cmpU : Comparison :=
  { bestOverallQuote := { quoteId := "qb", total := 120, vendor := "VendorB", baseUrl := "u2", err := none },
    bestBudgetQuote := { quoteId := "qb", total := 120, vendor := "VendorB", baseUrl := "u2", err := none },
    allQuotes := [ { quoteId := "qa", total := 300, vendor := "VendorA", baseUrl := "u1", err := none },
                   { quoteId := "qb", total := 120, vendor := "VendorB", baseUrl := "u2", err := none } ],
    maxSavings := 180, percentageSaved := 60, recommendedVendor := "VendorB" }

/-- Vendor outcome with total 100, for the scenario of claim C6. -/
def vendAcme : VendorOutcome :=
  { name := "VendorA", baseUrl := "urlA", result := Except.ok { quoteId := "qa", total := 100 } }

/-- Vendor outcome with total 80, for the scenario of claim C6. -/
def vendBolt : VendorOutcome :=
  { name := "VendorB", baseUrl := "urlB", result := Except.ok { quoteId := "qb", total := 80 } }

/-- Comparison the comparator produces on totals 100 and 80: the 80
quote wins, savings 20, and percentageSaved is 20 over the maximum. -/
def cmpC6 : Comparison :=
  { bestOverallQuote := { quoteId := "qb", total := 80, vendor := "VendorB", baseUrl := "urlB", err := none },
    bestBudgetQuote := { quoteId := "qb", total := 80, vendor := "VendorB", baseUrl := "urlB", err := none },
    allQuotes := [ { quoteId := "qa", total := 100, vendor := "VendorA", baseUrl := "urlA", err := none },
                   { quoteId := "qb", total := 80, vendor := "VendorB", baseUrl := "urlB", err := none } ],
    maxSavings := 20, percentageSaved := 20, recommendedVendor := "VendorB" }

/-- Gourmet board line at quantity 2. -/
def liG2 : QuoteLineItem :=
  { sku := "premium-gourmet-001", name := "Artisan Cheese & Charcuterie Board (serves 15)",
    quantity := 2, unitPrice := 280, totalPrice := 560 }

/-- Gourmet board line after the accepted adjustment to quantity 3. -/
def liG3 : QuoteLineItem :=
  { sku := "premium-gourmet-001", name := "Artisan Cheese & Charcuterie Board (serves 15)",
    quantity := 3, unitPrice := 280, totalPrice := 840 }

/-- Premium quote whose line-item array lives at heap address 0. -/
def hQuote1 : HQuote :=
  { quoteId := "q1", total := 560, itemsRef := 0, deliveryWindow := "", expires := 100000000,
    vendor := "Premium Foods Co.",
    paymentTerms := { initialPayment := 168, deliveryPayment := 392, initialPercentage := 30 } }

/-- Premium store holding that quote and its array. -/
def hState0 : HeapState :=
  { quotes := [("q1", hQuote1)], carts := [], arrays := [(0, [liG2])] }

/-- Store after locking cart c1 against quote q1 at epoch 100. -/
def hState1 : HeapState := (lockCartH hState0 ("q1") ("c1") 100).2

/-- Store after the subsequent accepted negotiation adjusting the board
quantity to 3. -/
def hState2 : HeapState :=
  (negotiateH hState1 ("q1") none [{ sku := "premium-gourmet-001", newQuantity := 3 }]).2

/-- Standard quote that expired at epoch 100. -/
def qStale : QuoteS :=
  { quoteId := "q1", total := 90, lineItems := [], deliveryWindow := "", expires := 100 }

/-- Premium store whose only quote expired at epoch 100. -/
def hStateStale : HeapState :=
  { quotes := [("q1", { hQuote1 with expires := 100 })], carts := [], arrays := [(0, [liG2])] }

/-- C6 counterexample: on vendor totals 100 and 80 the comparator picks
the 80 quote and reports savings 20, but its percentageSaved is 20
(savings over the maximum total), not the 25 the claim states. -/
theorem comparator_scenario_C6_counterexample :
    createQuoteFromAllVendors [vendAcme, vendBolt] = Except.ok cmpC6 ∧
    cmpC6.bestBudgetQuote.total = 80 ∧ cmpC6.maxSavings = 20 ∧
    ¬(cmpC6.percentageSaved = 25) := by
  refine ⟨?_, by norm_num [cmpC6], by norm_num [cmpC6], by norm_num [cmpC6]⟩
  norm_num [createQuoteFromAllVendors, toVendorQuote, vendAcme, vendBolt, pickBetter,
    cmpC6, List.filter, List.lookup]
/-- C6 amended: with exactly two valid vendor totals 100 and 80 the
comparator selects the 80 quote, reports savings 20, and reports
percentageSaved 20. -/
theorem comparator_scenario_C6_amended :
    createQuoteFromAllVendors [vendAcme, vendBolt] = Except.ok cmpC6 ∧
    cmpC6.bestBudgetQuote.total = 80 ∧ cmpC6.maxSavings = 20 ∧
    cmpC6.percentageSaved = 20 := by
  refine ⟨?_, by norm_num [cmpC6], by norm_num [cmpC6], by norm_num [cmpC6]⟩
  norm_num [createQuoteFromAllVendors, toVendorQuote, vendAcme, vendBolt, pickBetter,
    cmpC6, List.filter, List.lookup]

/-- C7: evaluation of the failing run.  After cart c1 is locked against
quote q1, an accepted negotiation adjusting the board quantity to 3
mutates the line-item array the cart shares with the quote: the cart
afterwards presents quantity 3 and line total 840 instead of its lock-time
snapshot (quantity 2, line total 560), while its copied total field still
reads 560.  This contradicts the claimed snapshot semantics. -/
theorem cart_aliasing_C7 :
    (negotiateH hState1 ("q1") none [{ sku := "premium-gourmet-001", newQuantity := 3 }]).1
      = NegoResultH.accepted ∧
    readCartItems ("c1") hState1 = some [liG2] ∧
    readCartItems ("c1") hState2 = some [liG3] ∧
    ¬([liG3] = [liG2]) ∧
    (hState2.carts.lookup ("c1")).map (fun c => c.total) = some 560 := by
  refine ⟨?_, ?_, ?_, by decide, ?_⟩ <;>
    norm_num [negotiateH, hState1, hState2, hState0, hQuote1, lockCartH, readCartItems,
      negotiationAccepts, jsOrQ, adjustAll, applyAdjustment, sumTot, setEntry, liG2, liG3,
      List.lookup, List.foldl]

/-- C8: evaluation of the failing run.  Both lockCart implementations
accept a quote whose expiration timestamp (epoch 100) is already in the
past at lock time (epoch 200) and produce a locked cart, performing no
expiry check. -/
theorem lockCart_no_expiry_check_C8 :
    qStale.expires < 200 ∧
    lockCartS [("q1", qStale)] ("q1") ("c1") 200
      = Except.ok { cartId := "c1", quoteId := "q1", total := 90, lineItems := [],
                    deliveryWindow := "", lockedUntil := 900200, status := "locked" } ∧
    ({ hQuote1 with expires := 100 }).expires < 200 ∧
    (lockCartH hStateStale ("q1") ("c2") 200).1
      = Except.ok { cartId := "c2", quoteId := "q1", total := 560, itemsRef := 0,
                    deliveryWindow := "", lockedUntil := 1200200, status := "locked",
                    vendor := "Premium Foods Co.",
                    paymentTerms := { initialPayment := 168, deliveryPayment := 392,
                                      initialPercentage := 30 } } := by
  refine ⟨by norm_num [qStale], ?_, by norm_num [hQuote1], ?_⟩ <;>
    norm_num [lockCartS, lockCartH, qStale, hStateStale, hQuote1, List.lookup]

/-- C4 counterexample: with a present counter-offer targetTotal of 0
against a stored quote of total 100, the claimed nullish reading makes
requestedTotal 0 and the implied discount 100 percent, far above the 15
percent tolerance, so the claim demands rejection; the source treats the
zero as falsy, falls back to the current total, and accepts. -/
theorem negotiate_C4_counterexample :
    negotiateStd [("q1", quoteCex)] ("q1") (some 0) []
      = (NegoResultS.accepted quoteCex, [("q1", quoteCex)]) ∧
    ¬((quoteCex.total - 0) / quoteCex.total ≤ 15 / 100) := by
  refine ⟨?_, by norm_num [quoteCex]⟩
  norm_num [negotiateStd, quoteCex, negotiationAccepts, jsOrQ, setEntry, List.lookup]
/-- C10: a mandate.create request whose amount is present but zero is
rejected with the missing-fields error exactly as if the amount were
absent, and the store is unchanged, so a zero-amount mandate can never be
created. -/
theorem createMandate_zero_amount_C10 :
    ∀ (cartId payerRef : String), cartId ≠ "" → payerRef ≠ "" →
    ∀ (currency : Option String) (ttl : Nat), ttl ≠ 0 →
    ∀ (mandateId : String) (now : Nat) (st : AP2State),
      createMandate (some cartId) (some payerRef) (some 0) currency (some ttl) mandateId now st
        = (CreateResult.missingFields, st) ∧
      createMandate (some cartId) (some payerRef) (some 0) currency (some ttl) mandateId now st
        = createMandate (some cartId) (some payerRef) none currency (some ttl) mandateId now st := by
  intro cartId payerRef hc hp currency ttl ht mandateId now st
  constructor
  · simp [createMandate]
  · simp [createMandate]

/-- Witness for C10 at a concrete request. -/
theorem createMandate_zero_amount_C10_witness :
    createMandate (some ("c1")) (some ("payer")) (some 0) none (some 10) ("m9") 0 initAP2
      = (CreateResult.missingFields, initAP2) :=
  (createMandate_zero_amount_C10 ("c1") ("payer") (by decide) (by decide) none 10
    (by decide) ("m9") 0 initAP2).1

/-- C1: the pay operation checks, in order: missing (falsy) request
fields give the invalid-request error; an unknown mandate gives the
not-found error; a non-active mandate gives the invalid-state error; a
ttl in the past gives the expired error and flips the stored mandate to
expired; a failing signature check gives the invalid-signature error; and
otherwise the mandate is marked used and a processing payment with a
transaction reference is stored and returned, all with the store
otherwise unchanged. -/
theorem processPayment_C1 :
    ∀ (verify : String → String → String → Bool)
      (mandateId signature publicKey : Option String) (now : Nat)
      (paymentId txnRef : String) (st : AP2State),
    (¬(jsTruthyS mandateId = true ∧ jsTruthyS signature = true ∧ jsTruthyS publicKey = true) →
      processPayment verify mandateId signature publicKey now paymentId txnRef st
        = (PayResult.invalidRequest, st)) ∧
    (∀ mid sg pk, mandateId = some mid → signature = some sg → publicKey = some pk →
      mid ≠ "" → sg ≠ "" → pk ≠ "" →
      (st.mandates.lookup mid = none →
        processPayment verify mandateId signature publicKey now paymentId txnRef st
          = (PayResult.mandateNotFound, st)) ∧
      (∀ m, st.mandates.lookup mid = some m →
        (m.status ≠ MStatus.active →
          processPayment verify mandateId signature publicKey now paymentId txnRef st
            = (PayResult.invalidMandateState, st)) ∧
        (m.status = MStatus.active → m.ttl < now →
          processPayment verify mandateId signature publicKey now paymentId txnRef st
            = (PayResult.mandateExpired,
               { st with mandates := setEntry mid { m with status := MStatus.expired } st.mandates })) ∧
        (m.status = MStatus.active → ¬(m.ttl < now) → verify m.challengeData sg pk = false →
          processPayment verify mandateId signature publicKey now paymentId txnRef st
            = (PayResult.invalidSignature, st)) ∧
        (m.status = MStatus.active → ¬(m.ttl < now) → verify m.challengeData sg pk = true →
          processPayment verify mandateId signature publicKey now paymentId txnRef st
            = (PayResult.paid paymentId PStatus.processing m.amount txnRef,
               { st with
                 mandates := setEntry mid { m with status := MStatus.used } st.mandates,
                 payments := setEntry paymentId
                   { paymentId := paymentId, mandateId := mid, status := PStatus.processing,
                     amount := m.amount, currency := m.currency, created := now,
                     updated := now, transactionRef := txnRef } st.payments })))) := by
  intro verify mandateId signature publicKey now paymentId txnRef st
  constructor
  · intro h
    match mandateId, signature, publicKey with
    | none, _, _ => cases signature <;> cases publicKey <;> rfl
    | some mid, none, _ => cases publicKey <;> rfl
    | some mid, some sg, none => rfl
    | some mid, some sg, some pk =>
      simp only [jsTruthyS, not_and, Bool.not_eq_true, Bool.not_eq_eq_eq_not, Bool.not_true,
        beq_iff_eq] at h
      have hcond : mid = "" ∨ sg = "" ∨ pk = "" := by
        by_cases h1 : mid = ""
        · exact Or.inl h1
        · by_cases h2 : sg = ""
          · exact Or.inr (Or.inl h2)
          · refine Or.inr (Or.inr ?_)
            have := h (by simpa using h1) (by simpa using h2)
            simpa using this
      simp [processPayment, hcond]
  · intro mid sg pk hmid hsg hpk hne1 hne2 hne3
    subst hmid; subst hsg; subst hpk
    have hcond : ¬(mid = "" ∨ sg = "" ∨ pk = "") := by
      simp [hne1, hne2, hne3]
    constructor
    · intro hlook
      simp [processPayment, hcond, hlook]
    · intro m hlook
      refine ⟨?_, ?_, ?_, ?_⟩
      · intro hstat
        simp [processPayment, hcond, hlook, hstat]
      · intro hstat httl
        simp [processPayment, hcond, hlook, hstat, httl]
      · intro hstat httl hver
        simp [processPayment, hcond, hlook, hstat, httl, hver]
      · intro hstat httl hver
        simp [processPayment, hcond, hlook, hstat, httl, hver]

/-- Witness for C1, realising the in-particular scenario of the claim: a
mandate created with ttl already in the past (epoch 100), paid at epoch
200, fails with the expired error and the stored mandate becomes
expired. -/
theorem processPayment_C1_witness :
    processPayment verifyAlways (some ("m1")) (some ("s")) (some ("k")) 200 ("p1") ("t1") stExp
      = (PayResult.mandateExpired,
         { stExp with mandates := setEntry ("m1") { mandateExp with status := MStatus.expired } stExp.mandates }) := by
  have h := processPayment_C1 verifyAlways (some ("m1")) (some ("s")) (some ("k")) 200 ("p1") ("t1") stExp
  exact (((h.2 ("m1") ("s") ("k") rfl rfl rfl (by decide) (by decide) (by decide)).2
    mandateExp (by rfl)).2.1 rfl (by decide))
/-- C3: for every successful quote, the total is the line-total sum when
that sum does not exceed the vendor threshold (500 standard, 400
premium); above the threshold it is the floor of the sum times the
retention factor (0.9 standard, 0.85 premium), applied once, and strictly
below the sum; in particular a standard quote whose line sum is 600 has
total 540. -/
theorem quote_total_C3 :
    (∀ (catalog : List CatalogItem) (items : List LineItemReq) (quoteId dw : String)
       (now : Nat) (q : QuoteS),
      createQuoteS catalog items quoteId dw now = Except.ok q →
      (sumTot q.lineItems ≤ 500 → q.total = (sumTot q.lineItems : ℚ)) ∧
      (500 < sumTot q.lineItems →
        q.total = ((⌊(sumTot q.lineItems : ℚ) * (9 / 10)⌋ : ℤ) : ℚ) ∧
        q.total < (sumTot q.lineItems : ℚ))) ∧
    (∀ (catalog : List CatalogItem) (items : List LineItemReq) (quoteId dw : String)
       (now : Nat) (q : QuoteP),
      createQuoteP catalog items quoteId dw now = Except.ok q →
      (sumTot q.lineItems ≤ 400 → q.total = (sumTot q.lineItems : ℚ)) ∧
      (400 < sumTot q.lineItems →
        q.total = ((⌊(sumTot q.lineItems : ℚ) * (85 / 100)⌋ : ℤ) : ℚ) ∧
        q.total < (sumTot q.lineItems : ℚ))) ∧
    (createQuoteS standardCatalog [{ sku := "beverage-coffee-001", quantity := 15 }]
        ("qc") ("") 0 = Except.ok qCoffee ∧
      sumTot qCoffee.lineItems = 600 ∧ qCoffee.total = 540) := by
  refine ⟨?_, ?_, ?_⟩
  · intro catalog items quoteId dw now q h
    unfold createQuoteS at h
    cases hb : buildLineItems catalog items with
    | error e => rw [hb] at h; exact absurd h (by simp)
    | ok lis =>
      rw [hb] at h
      simp only [Except.ok.injEq] at h
      subst h
      simp only []
      constructor
      · intro hle
        rw [if_neg (by omega)]
      · intro hlt
        rw [if_pos hlt]
        have hs : (0 : ℚ) < (sumTot lis : ℚ) := by
          have : 0 < sumTot lis := by omega
          exact_mod_cast this
        refine ⟨rfl, ?_⟩
        calc ((⌊(sumTot lis : ℚ) * (9 / 10)⌋ : ℤ) : ℚ)
            ≤ (sumTot lis : ℚ) * (9 / 10) := Int.floor_le _
          _ < (sumTot lis : ℚ) := mul_lt_of_lt_one_right hs (by norm_num)
  · intro catalog items quoteId dw now q h
    unfold createQuoteP at h
    cases hb : buildLineItems catalog items with
    | error e => rw [hb] at h; exact absurd h (by simp)
    | ok lis =>
      rw [hb] at h
      simp only [Except.ok.injEq] at h
      subst h
      simp only []
      constructor
      · intro hle
        rw [if_neg (by omega)]
      · intro hlt
        rw [if_pos hlt]
        have hs : (0 : ℚ) < (sumTot lis : ℚ) := by
          have : 0 < sumTot lis := by omega
          exact_mod_cast this
        refine ⟨rfl, ?_⟩
        calc ((⌊(sumTot lis : ℚ) * (85 / 100)⌋ : ℤ) : ℚ)
            ≤ (sumTot lis : ℚ) * (85 / 100) := Int.floor_le _
          _ < (sumTot lis : ℚ) := mul_lt_of_lt_one_right hs (by norm_num)
  · refine ⟨?_, by decide, by norm_num [qCoffee]⟩
    simp [createQuoteS, buildLineItems, standardCatalog, List.find?, sumTot, qCoffee]
    norm_num

/-- Witness for C3: the spring-roll quote with line sum 2400 is priced at
the floored discounted value, strictly below the sum. -/
theorem quote_total_C3_witness :
    qVeg.total = ((⌊(sumTot qVeg.lineItems : ℚ) * (9 / 10)⌋ : ℤ) : ℚ) ∧
    qVeg.total < (sumTot qVeg.lineItems : ℚ) :=
  (quote_total_C3.1 standardCatalog [{ sku := "snack-veg-001", quantity := 20 }]
    ("qv") ("") 0 qVeg
    (by
      simp [createQuoteS, buildLineItems, standardCatalog, List.find?, sumTot, qVeg]
      norm_num)).2
    (by decide)

/-- Pointwise description of every line item produced by the quote loop,
for catalogs without an explicit zero minimum (both vendor catalogs):
each line resolves its SKU in the catalog, clamps the quantity up to the
catalog minimum, and prices the line as unit price times quantity. -/
theorem buildLineItems_forall2 :
    ∀ (catalog : List CatalogItem) (items : List LineItemReq) (lis : List QuoteLineItem),
    (∀ c, c ∈ catalog → c.minQuantity ≠ some 0) →
    buildLineItems catalog items = Except.ok lis →
    List.Forall₂ (fun (r : LineItemReq) (li : QuoteLineItem) =>
      ∃ c, catalog.find? (fun x => x.sku == r.sku) = some c ∧
        li.quantity = max r.quantity (c.minQuantity.getD 1) ∧
        r.quantity ≤ li.quantity ∧ c.minQuantity.getD 1 ≤ li.quantity ∧
        li.unitPrice = c.price ∧ li.totalPrice = li.unitPrice * li.quantity) items lis := by
  intro catalog items
  induction items with
  | nil =>
    intro lis hmin h
    unfold buildLineItems at h
    simp only [Except.ok.injEq] at h
    subst h
    exact List.Forall₂.nil
  | cons r rest ih =>
    intro lis hmin h
    unfold buildLineItems at h
    cases hf : catalog.find? (fun c => c.sku == r.sku) with
    | none => rw [hf] at h; exact absurd h (by simp)
    | some c =>
      rw [hf] at h
      cases hb : buildLineItems catalog rest with
      | error e => rw [hb] at h; exact absurd h (by simp)
      | ok tail =>
        rw [hb] at h
        simp only [Except.ok.injEq] at h
        subst h
        refine List.Forall₂.cons ?_ (ih tail hmin hb)
        have hmem : c ∈ catalog := List.mem_of_find?_eq_some hf
        have hmq : (match c.minQuantity with
            | none => 1
            | some m => if m = 0 then 1 else m) = c.minQuantity.getD 1 := by
          cases hcm : c.minQuantity with
          | none => rfl
          | some m =>
            have : m ≠ 0 := by
              intro h0
              exact hmin c hmem (by rw [hcm, h0])
            simp [this]
        refine ⟨c, hf, ?_, ?_, ?_, rfl, rfl⟩
        · simp only [hmq]
        · exact le_max_left _ _
        · rw [hmq]; exact le_max_right _ _

/-- C9: for every quote request whose SKUs all resolve in the catalog
(and whose catalog has no explicit zero minimum, true of both vendor
catalogs), each returned line item of either vendor carries quantity
max(requested, minQuantity default 1), hence at least the requested
quantity and at least the catalog minimum, and line total equal to unit
price times quantity; in particular requesting 5 of an item with minimum
20 and unit price 10 yields quantity 20 and line total 200. -/
theorem quote_line_items_C9 :
    (∀ (catalog : List CatalogItem) (items : List LineItemReq) (quoteId dw : String)
       (now : Nat) (q : QuoteS),
      (∀ c, c ∈ catalog → c.minQuantity ≠ some 0) →
      createQuoteS catalog items quoteId dw now = Except.ok q →
      List.Forall₂ (fun (r : LineItemReq) (li : QuoteLineItem) =>
        ∃ c, catalog.find? (fun x => x.sku == r.sku) = some c ∧
          li.quantity = max r.quantity (c.minQuantity.getD 1) ∧
          r.quantity ≤ li.quantity ∧ c.minQuantity.getD 1 ≤ li.quantity ∧
          li.unitPrice = c.price ∧ li.totalPrice = li.unitPrice * li.quantity)
        items q.lineItems) ∧
    (∀ (catalog : List CatalogItem) (items : List LineItemReq) (quoteId dw : String)
       (now : Nat) (q : QuoteP),
      (∀ c, c ∈ catalog → c.minQuantity ≠ some 0) →
      createQuoteP catalog items quoteId dw now = Except.ok q →
      List.Forall₂ (fun (r : LineItemReq) (li : QuoteLineItem) =>
        ∃ c, catalog.find? (fun x => x.sku == r.sku) = some c ∧
          li.quantity = max r.quantity (c.minQuantity.getD 1) ∧
          r.quantity ≤ li.quantity ∧ c.minQuantity.getD 1 ≤ li.quantity ∧
          li.unitPrice = c.price ∧ li.totalPrice = li.unitPrice * li.quantity)
        items q.lineItems) ∧
    (createQuoteS catX [{ sku := "X", quantity := 5 }] ("qx") ("") 0 = Except.ok qX) := by
  refine ⟨?_, ?_, ?_⟩
  · intro catalog items quoteId dw now q hmin h
    unfold createQuoteS at h
    cases hb : buildLineItems catalog items with
    | error e => rw [hb] at h; exact absurd h (by simp)
    | ok lis =>
      rw [hb] at h
      simp only [Except.ok.injEq] at h
      subst h
      exact buildLineItems_forall2 catalog items lis hmin hb
  · intro catalog items quoteId dw now q hmin h
    unfold createQuoteP at h
    cases hb : buildLineItems catalog items with
    | error e => rw [hb] at h; exact absurd h (by simp)
    | ok lis =>
      rw [hb] at h
      simp only [Except.ok.injEq] at h
      subst h
      exact buildLineItems_forall2 catalog items lis hmin hb
  · simp [createQuoteS, buildLineItems, catX, List.find?, sumTot, qX]

/-- Witness for C9 at the one-item catalog of the scenario. -/
theorem quote_line_items_C9_witness :
    List.Forall₂ (fun (r : LineItemReq) (li : QuoteLineItem) =>
      ∃ c, catX.find? (fun x => x.sku == r.sku) = some c ∧
        li.quantity = max r.quantity (c.minQuantity.getD 1) ∧
        r.quantity ≤ li.quantity ∧ c.minQuantity.getD 1 ≤ li.quantity ∧
        li.unitPrice = c.price ∧ li.totalPrice = li.unitPrice * li.quantity)
      [{ sku := "X", quantity := 5 }] qX.lineItems :=
  quote_line_items_C9.1 catX [{ sku := "X", quantity := 5 }] ("qx") ("") 0 qX
    (by decide)
    (by
      simp [createQuoteS, buildLineItems, catX, List.find?, sumTot, qX])
/-- Applying one adjustment does not change the SKU column. -/
theorem applyAdjustment_skus (a : Adjustment) :
    ∀ lis : List QuoteLineItem,
    (applyAdjustment lis a).map (fun li => li.sku) = lis.map (fun li => li.sku) := by
  intro lis
  induction lis with
  | nil => rfl
  | cons li rest ih =>
    unfold applyAdjustment
    by_cases h : (li.sku == a.sku) = true
    · rw [if_pos h]
      simp only [List.map_cons]
    · rw [if_neg h]
      simp only [List.map_cons, ih]

/-- Under distinct line SKUs, applying one adjustment is the pointwise
update of the (unique) matching line. -/
theorem applyAdjustment_eq_map (a : Adjustment) :
    ∀ lis : List QuoteLineItem, ((lis.map (fun li => li.sku)).Nodup) →
    applyAdjustment lis a = lis.map (fun li =>
      if li.sku == a.sku then
        { li with quantity := a.newQuantity, totalPrice := li.unitPrice * a.newQuantity }
      else li) := by
  intro lis
  induction lis with
  | nil => intro _; rfl
  | cons li rest ih =>
    intro h
    simp only [List.map_cons, List.nodup_cons] at h
    obtain ⟨hnotin, hnd⟩ := h
    unfold applyAdjustment
    by_cases hsku : (li.sku == a.sku) = true
    · rw [if_pos hsku]
      simp only [List.map_cons, if_pos hsku]
      have hall : ∀ x ∈ rest, ¬(x.sku == a.sku) = true := by
        intro x hx hc
        apply hnotin
        have hx1 : x.sku = a.sku := by exact_mod_cast beq_iff_eq.mp hc
        have hl1 : li.sku = a.sku := by exact_mod_cast beq_iff_eq.mp hsku
        rw [hl1, ← hx1]
        exact List.mem_map.mpr ⟨x, hx, rfl⟩
      have hmap : rest.map (fun x =>
          if x.sku == a.sku then
            { x with quantity := a.newQuantity, totalPrice := x.unitPrice * a.newQuantity }
          else x) = rest.map (fun x => x) := by
        apply List.map_congr_left
        intro x hx
        rw [if_neg (hall x hx)]
      rw [hmap, List.map_id']
    · rw [if_neg hsku]
      simp only [List.map_cons, if_neg hsku, ih hnd]

/-- Under distinct SKUs on both sides, the adjustment loop of negotiate
equals the pointwise update by the unique matching adjustment. -/
theorem adjustAll_eq_map :
    ∀ (as' : List Adjustment) (lis : List QuoteLineItem),
    (lis.map (fun li => li.sku)).Nodup → (as'.map (fun a => a.sku)).Nodup →
    adjustAll lis as' = lis.map (adjustFun as') := by
  intro as'
  induction as' with
  | nil =>
    intro lis hl ha
    unfold adjustAll
    simp only [List.foldl_nil]
    have : lis.map (adjustFun []) = lis.map (fun li => li) := by
      apply List.map_congr_left
      intro li _
      rfl
    rw [this, List.map_id']
  | cons a rest ih =>
    intro lis hl ha
    simp only [List.map_cons, List.nodup_cons] at ha
    obtain ⟨hanotin, hand⟩ := ha
    unfold adjustAll at ih ⊢
    rw [List.foldl_cons]
    have hl2 : ((applyAdjustment lis a).map (fun li => li.sku)).Nodup := by
      rw [applyAdjustment_skus]; exact hl
    rw [ih (applyAdjustment lis a) hl2 hand, applyAdjustment_eq_map a lis hl, List.map_map]
    apply List.map_congr_left
    intro li hli
    by_cases hsku : (li.sku == a.sku) = true
    · have hli_sku : li.sku = a.sku := by exact_mod_cast beq_iff_eq.mp hsku
      have hnone : rest.find? (fun x => x.sku == li.sku) = none := by
        apply List.find?_eq_none.mpr
        intro x hx hc
        apply hanotin
        have hx1 : x.sku = li.sku := by exact_mod_cast beq_iff_eq.mp hc
        rw [← hli_sku, ← hx1]
        exact List.mem_map.mpr ⟨x, hx, rfl⟩
      have hhead : (a.sku == li.sku) = true := by
        rw [hli_sku]; exact beq_self_eq_true _
      simp only [Function.comp, if_pos hsku, adjustFun, List.find?_cons, hhead, hnone]
    · have hhead : (a.sku == li.sku) = false := by
        apply beq_eq_false_iff_ne.mpr
        intro hc
        apply hsku
        rw [hc]; exact beq_self_eq_true _
      simp only [Function.comp, if_neg hsku, adjustFun, List.find?_cons, hhead]

/-- C4 amended: with requestedTotal being targetTotal when present and
nonzero (the falsy fallback of the source) and otherwise the current
total, a counter-offer against a quote with nonzero total is accepted
exactly when the implied discount is at most the vendor tolerance (0.15
standard, 0.08 premium); rejection leaves the store unchanged; acceptance
without adjustments stores the requested total; and acceptance with a
non-empty adjustment list over pairwise-distinct SKUs replaces each
matching line quantity, reprices the line as unit price times new
quantity, and stores the sum of line totals as the new total, superseding
the requested target (the premium vendor additionally recomputes its
split payment terms from that new total). -/
theorem negotiate_C4_amended :
    (∀ (quotes : List (String × QuoteS)) (quoteId : String) (targetTotal : Option ℚ)
       (adjustedItems : List Adjustment) (q : QuoteS),
      quotes.lookup quoteId = some q → q.total ≠ 0 →
      (¬((q.total - jsOrQ targetTotal q.total) / q.total ≤ 15 / 100) →
        negotiateStd quotes quoteId targetTotal adjustedItems = (NegoResultS.rejected, quotes)) ∧
      ((q.total - jsOrQ targetTotal q.total) / q.total ≤ 15 / 100 →
        (adjustedItems = [] →
          negotiateStd quotes quoteId targetTotal adjustedItems
            = (NegoResultS.accepted { q with total := jsOrQ targetTotal q.total },
               setEntry quoteId { q with total := jsOrQ targetTotal q.total } quotes)) ∧
        (adjustedItems ≠ [] →
          (q.lineItems.map (fun li => li.sku)).Nodup →
          (adjustedItems.map (fun a => a.sku)).Nodup →
          negotiateStd quotes quoteId targetTotal adjustedItems
            = (NegoResultS.accepted
                 { q with lineItems := q.lineItems.map (adjustFun adjustedItems),
                          total := (sumTot (q.lineItems.map (adjustFun adjustedItems)) : ℚ) },
               setEntry quoteId
                 { q with lineItems := q.lineItems.map (adjustFun adjustedItems),
                          total := (sumTot (q.lineItems.map (adjustFun adjustedItems)) : ℚ) }
                 quotes)))) ∧
    (∀ (quotes : List (String × QuoteP)) (quoteId : String) (targetTotal : Option ℚ)
       (adjustedItems : List Adjustment) (q : QuoteP),
      quotes.lookup quoteId = some q → q.total ≠ 0 →
      (¬((q.total - jsOrQ targetTotal q.total) / q.total ≤ 8 / 100) →
        negotiatePrem quotes quoteId targetTotal adjustedItems = (NegoResultP.rejected, quotes)) ∧
      ((q.total - jsOrQ targetTotal q.total) / q.total ≤ 8 / 100 →
        (adjustedItems = [] →
          negotiatePrem quotes quoteId targetTotal adjustedItems
            = (NegoResultP.accepted
                 { q with total := jsOrQ targetTotal q.total,
                          paymentTerms := { q.paymentTerms with
                            initialPayment := ((⌊jsOrQ targetTotal q.total * (q.paymentTerms.initialPercentage / 100)⌋ : ℤ) : ℚ),
                            deliveryPayment := jsOrQ targetTotal q.total
                              - ((⌊jsOrQ targetTotal q.total * (q.paymentTerms.initialPercentage / 100)⌋ : ℤ) : ℚ) } },
               setEntry quoteId
                 { q with total := jsOrQ targetTotal q.total,
                          paymentTerms := { q.paymentTerms with
                            initialPayment := ((⌊jsOrQ targetTotal q.total * (q.paymentTerms.initialPercentage / 100)⌋ : ℤ) : ℚ),
                            deliveryPayment := jsOrQ targetTotal q.total
                              - ((⌊jsOrQ targetTotal q.total * (q.paymentTerms.initialPercentage / 100)⌋ : ℤ) : ℚ) } }
                 quotes)) ∧
        (adjustedItems ≠ [] →
          (q.lineItems.map (fun li => li.sku)).Nodup →
          (adjustedItems.map (fun a => a.sku)).Nodup →
          negotiatePrem quotes quoteId targetTotal adjustedItems
            = (NegoResultP.accepted
                 { q with lineItems := q.lineItems.map (adjustFun adjustedItems),
                          total := (sumTot (q.lineItems.map (adjustFun adjustedItems)) : ℚ),
                          paymentTerms := { q.paymentTerms with
                            initialPayment := ((⌊(sumTot (q.lineItems.map (adjustFun adjustedItems)) : ℚ) * (q.paymentTerms.initialPercentage / 100)⌋ : ℤ) : ℚ),
                            deliveryPayment := (sumTot (q.lineItems.map (adjustFun adjustedItems)) : ℚ)
                              - ((⌊(sumTot (q.lineItems.map (adjustFun adjustedItems)) : ℚ) * (q.paymentTerms.initialPercentage / 100)⌋ : ℤ) : ℚ) } },
               setEntry quoteId
                 { q with lineItems := q.lineItems.map (adjustFun adjustedItems),
                          total := (sumTot (q.lineItems.map (adjustFun adjustedItems)) : ℚ),
                          paymentTerms := { q.paymentTerms with
                            initialPayment := ((⌊(sumTot (q.lineItems.map (adjustFun adjustedItems)) : ℚ) * (q.paymentTerms.initialPercentage / 100)⌋ : ℤ) : ℚ),
                            deliveryPayment := (sumTot (q.lineItems.map (adjustFun adjustedItems)) : ℚ)
                              - ((⌊(sumTot (q.lineItems.map (adjustFun adjustedItems)) : ℚ) * (q.paymentTerms.initialPercentage / 100)⌋ : ℤ) : ℚ) } }
                 quotes)))) := by
  constructor
  · intro quotes quoteId targetTotal adjustedItems q hlook hne0
    constructor
    · intro hrej
      have hb : negotiationAccepts q.total (jsOrQ targetTotal q.total) (15 / 100) = false := by
        unfold negotiationAccepts
        rw [if_neg hne0]
        exact decide_eq_false hrej
      simp [negotiateStd, hlook, hb]
    · intro hacc
      have hb : negotiationAccepts q.total (jsOrQ targetTotal q.total) (15 / 100) = true := by
        unfold negotiationAccepts
        rw [if_neg hne0]
        exact decide_eq_true hacc
      constructor
      · intro hempty
        subst hempty
        simp [negotiateStd, hlook, hb]
      · intro hne hnodl hnoda
        have hemp : adjustedItems.isEmpty = false := by
          cases adjustedItems with
          | nil => exact absurd rfl hne
          | cons a as => rfl
        simp only [negotiateStd, hlook, hb, if_true, hemp, Bool.false_eq_true, if_false,
          adjustAll_eq_map adjustedItems q.lineItems hnodl hnoda]
  · intro quotes quoteId targetTotal adjustedItems q hlook hne0
    constructor
    · intro hrej
      have hb : negotiationAccepts q.total (jsOrQ targetTotal q.total) (8 / 100) = false := by
        unfold negotiationAccepts
        rw [if_neg hne0]
        exact decide_eq_false hrej
      simp [negotiatePrem, hlook, hb]
    · intro hacc
      have hb : negotiationAccepts q.total (jsOrQ targetTotal q.total) (8 / 100) = true := by
        unfold negotiationAccepts
        rw [if_neg hne0]
        exact decide_eq_true hacc
      constructor
      · intro hempty
        subst hempty
        simp [negotiatePrem, hlook, hb]
      · intro hne hnodl hnoda
        have hemp : adjustedItems.isEmpty = false := by
          cases adjustedItems with
          | nil => exact absurd rfl hne
          | cons a as => rfl
        simp only [negotiatePrem, hlook, hb, if_true, hemp, Bool.false_eq_true, if_false,
          adjustAll_eq_map adjustedItems q.lineItems hnodl hnoda]

/-- Witness for the amended C4: accepting a counter-offer that adjusts
the single line of a 20-total quote to quantity 5 stores the repriced
line and the recomputed total 50. -/
theorem negotiate_C4_amended_witness :
    negotiateStd storeW ("qw") none [{ sku := "a", newQuantity := 5 }]
      = (NegoResultS.accepted
           { qW with lineItems := qW.lineItems.map (adjustFun [{ sku := "a", newQuantity := 5 }]),
                     total := (sumTot (qW.lineItems.map (adjustFun [{ sku := "a", newQuantity := 5 }])) : ℚ) },
         setEntry ("qw")
           { qW with lineItems := qW.lineItems.map (adjustFun [{ sku := "a", newQuantity := 5 }]),
                     total := (sumTot (qW.lineItems.map (adjustFun [{ sku := "a", newQuantity := 5 }])) : ℚ) }
           storeW) := by
  have h := negotiate_C4_amended.1 storeW ("qw") none [{ sku := "a", newQuantity := 5 }] qW
    (by rfl) (by norm_num [qW])
  exact (h.2 (by norm_num [qW, jsOrQ])).2 (by decide) (by decide) (by decide)
/-- The selection reduce of the comparator returns an element of the
candidate list. -/
theorem pickBetter_foldl_mem :
    ∀ (vs : List VendorQuote) (v : VendorQuote), vs.foldl pickBetter v ∈ v :: vs := by
  intro vs
  induction vs with
  | nil => intro v; simp
  | cons c cs ih =>
    intro v
    rw [List.foldl_cons]
    have hpb : pickBetter v c = v ∨ pickBetter v c = c := by
      unfold pickBetter; split
      · exact Or.inr rfl
      · exact Or.inl rfl
    rcases List.mem_cons.mp (ih (pickBetter v c)) with h1 | h2
    · rcases hpb with h3 | h3
      · exact List.mem_cons.mpr (Or.inl (h1.trans h3))
      · simp only [List.mem_cons]
        exact Or.inr (Or.inl (h1.trans h3))
    · simp only [List.mem_cons]
      exact Or.inr (Or.inr h2)

/-- The selection reduce of the comparator returns a total below every
candidate total. -/
theorem pickBetter_foldl_le :
    ∀ (vs : List VendorQuote) (v q : VendorQuote),
    q ∈ v :: vs → (vs.foldl pickBetter v).total ≤ q.total := by
  intro vs
  induction vs with
  | nil =>
    intro v q hq
    simp only [List.mem_singleton] at hq
    subst hq
    simp
  | cons c cs ih =>
    intro v q hq
    rw [List.foldl_cons]
    have hle_v : (pickBetter v c).total ≤ v.total := by
      unfold pickBetter; split
      · exact le_of_lt (by assumption)
      · exact le_refl _
    have hle_c : (pickBetter v c).total ≤ c.total := by
      unfold pickBetter; split
      · exact le_refl _
      · exact le_of_not_lt (by assumption)
    have hself := ih (pickBetter v c) (pickBetter v c) (List.mem_cons_self _ _)
    rcases List.mem_cons.mp hq with rfl | hq2
    · exact le_trans hself hle_v
    · rcases List.mem_cons.mp hq2 with rfl | hq3
      · exact le_trans hself hle_c
      · exact ih (pickBetter v c) q (List.mem_cons_of_mem _ hq3)

/-- The running Math.max of the comparator never drops below its start
value. -/
theorem maxfold_start_le :
    ∀ (vs : List VendorQuote) (x : ℚ),
    x ≤ vs.foldl (fun acc q => max acc q.total) x := by
  intro vs
  induction vs with
  | nil => intro x; simp
  | cons c cs ih =>
    intro x
    rw [List.foldl_cons]
    exact le_trans (le_max_left _ _) (ih (max x c.total))

/-- The running Math.max of the comparator bounds every candidate
total. -/
theorem maxfold_ub :
    ∀ (vs : List VendorQuote) (x : ℚ) (q : VendorQuote),
    q ∈ vs → q.total ≤ vs.foldl (fun acc q => max acc q.total) x := by
  intro vs
  induction vs with
  | nil => intro x q hq; exact absurd hq (by simp)
  | cons c cs ih =>
    intro x q hq
    rw [List.foldl_cons]
    rcases List.mem_cons.mp hq with rfl | hq2
    · exact le_trans (le_max_right _ _) (maxfold_start_le cs (max x q.total))
    · exact ih (max x c.total) q hq2

/-- The running Math.max of the comparator is its start value or some
candidate total. -/
theorem maxfold_attained :
    ∀ (vs : List VendorQuote) (x : ℚ),
    vs.foldl (fun acc q => max acc q.total) x = x ∨
    ∃ q ∈ vs, vs.foldl (fun acc q => max acc q.total) x = q.total := by
  intro vs
  induction vs with
  | nil => intro x; exact Or.inl rfl
  | cons c cs ih =>
    intro x
    rw [List.foldl_cons]
    rcases ih (max x c.total) with h | ⟨q, hq, he⟩
    · by_cases hcx : c.total ≤ x
      · exact Or.inl (h.trans (max_eq_left hcx))
      · exact Or.inr ⟨c, List.mem_cons_self _ _, h.trans (max_eq_right (le_of_not_le hcx))⟩
    · exact Or.inr ⟨q, List.mem_cons_of_mem _ hq, he⟩

/-- C5: the comparator fails with the no-quotes error exactly on an empty
valid set; otherwise the selected quote is a valid quote of minimum
total, the reported savings is the maximum valid total minus the best
total, percentageSaved is savings over that maximum times 100, and it is
0 when the maximum equals the best total. -/
theorem comparator_C5 :
    ∀ vendors : List VendorOutcome,
    (((vendors.map toVendorQuote).filter (fun q => q.err.isNone)) = [] →
      createQuoteFromAllVendors vendors
        = Except.error ("No valid quotes received from any vendor")) ∧
    (∀ cmp, createQuoteFromAllVendors vendors = Except.ok cmp →
      cmp.bestBudgetQuote ∈ (vendors.map toVendorQuote).filter (fun q => q.err.isNone) ∧
      (∀ q ∈ (vendors.map toVendorQuote).filter (fun q => q.err.isNone),
        cmp.bestBudgetQuote.total ≤ q.total) ∧
      ∃ M, (∃ q ∈ (vendors.map toVendorQuote).filter (fun q => q.err.isNone), q.total = M) ∧
        (∀ q ∈ (vendors.map toVendorQuote).filter (fun q => q.err.isNone), q.total ≤ M) ∧
        cmp.maxSavings = M - cmp.bestBudgetQuote.total ∧
        cmp.percentageSaved = cmp.maxSavings / M * 100 ∧
        (M = cmp.bestBudgetQuote.total → cmp.percentageSaved = 0)) := by
  intro vendors
  cases hf : (vendors.map toVendorQuote).filter (fun q => q.err.isNone) with
  | nil =>
    constructor
    · intro _
      simp only [createQuoteFromAllVendors]
      rw [hf]
    · intro cmp hcmp
      simp only [createQuoteFromAllVendors] at hcmp
      rw [hf] at hcmp
      exact absurd hcmp (by simp)
  | cons v vs =>
    constructor
    · intro h
      exact absurd h (by simp)
    · intro cmp hcmp
      simp only [createQuoteFromAllVendors] at hcmp
      rw [hf] at hcmp
      simp only [Except.ok.injEq] at hcmp
      subst hcmp
      refine ⟨?_, ?_, ?_⟩
      · exact pickBetter_foldl_mem vs v
      · intro q hq
        exact pickBetter_foldl_le vs v q hq
      · refine ⟨vs.foldl (fun acc q => max acc q.total) v.total, ?_, ?_, rfl, ?_, ?_⟩
        · rcases maxfold_attained vs v.total with h | ⟨q, hq, he⟩
          · exact ⟨v, List.mem_cons_self _ _, h.symm⟩
          · exact ⟨q, List.mem_cons_of_mem _ hq, he.symm⟩
        · intro q hq
          rcases List.mem_cons.mp hq with rfl | hq2
          · exact maxfold_start_le vs q.total
          · exact maxfold_ub vs v.total q hq2
        · by_cases h0 : 0 < vs.foldl (fun acc q => max acc q.total) v.total
              - (vs.foldl pickBetter v).total
          · simp only [if_pos h0]
          · simp only [if_neg h0]
            have hge : (vs.foldl pickBetter v).total
                ≤ vs.foldl (fun acc q => max acc q.total) v.total := by
              rcases List.mem_cons.mp (pickBetter_foldl_mem vs v) with h1 | h2
              · rw [h1]; exact maxfold_start_le vs v.total
              · exact maxfold_ub vs v.total _ h2
            have heq : vs.foldl (fun acc q => max acc q.total) v.total
                - (vs.foldl pickBetter v).total = 0 := by linarith
            rw [heq, zero_div, zero_mul]
        · intro hM
          have heq : vs.foldl (fun acc q => max acc q.total) v.total
              - (vs.foldl pickBetter v).total = 0 := by rw [hM]; ring
          rw [heq]
          simp

/-- Witness for C5: the comparator on concrete totals 300 and 120
returns a best quote drawn from the valid set. -/
theorem comparator_C5_witness :
    cmpU.bestBudgetQuote ∈ (vendU.map toVendorQuote).filter (fun q => q.err.isNone) :=
  ((comparator_C5 vendU).2 cmpU (by
    norm_num [createQuoteFromAllVendors, toVendorQuote, vendU, pickBetter, cmpU,
      List.filter])).1
/-- Looking up the key just set yields the new value. -/
theorem lookup_setEntry_self {κ α : Type} [BEq κ] [LawfulBEq κ] (k : κ) (v : α) :
    ∀ l : List (κ × α), (setEntry k v l).lookup k = some v := by
  intro l
  induction l with
  | nil => simp [setEntry, List.lookup]
  | cons e rest ih =>
    obtain ⟨k0, v0⟩ := e
    unfold setEntry
    by_cases h : (k0 == k) = true
    · rw [if_pos h]
      simp [List.lookup]
    · rw [if_neg h]
      have h2 : (k == k0) = false := by
        apply beq_eq_false_iff_ne.mpr
        intro hc
        exact h (by rw [hc]; exact beq_self_eq_true k0)
      simp [List.lookup, h2, ih]

/-- Setting one key leaves lookups of other keys unchanged. -/
theorem lookup_setEntry_ne {κ α : Type} [BEq κ] [LawfulBEq κ] (k k0 : κ) (v : α)
    (h : k0 ≠ k) : ∀ l : List (κ × α), (setEntry k v l).lookup k0 = l.lookup k0 := by
  have hbeq : (k0 == k) = false := beq_eq_false_iff_ne.mpr h
  intro l
  induction l with
  | nil => simp [setEntry, List.lookup, hbeq]
  | cons e rest ih =>
    obtain ⟨k1, v1⟩ := e
    unfold setEntry
    by_cases h1 : (k1 == k) = true
    · rw [if_pos h1]
      have hk1 : k1 = k := beq_iff_eq.mp h1
      subst hk1
      simp [List.lookup, hbeq]
    · rw [if_neg h1]
      cases hk : k0 == k1 <;> simp [List.lookup, hk, ih]

/-- Setting an absent key appends the binding. -/
theorem setEntry_append {κ α : Type} [BEq κ] [LawfulBEq κ] (k : κ) (v : α) :
    ∀ l : List (κ × α), l.lookup k = none → setEntry k v l = l ++ [(k, v)] := by
  intro l
  induction l with
  | nil => intro _; rfl
  | cons e rest ih =>
    obtain ⟨k0, v0⟩ := e
    intro h
    have h0 : (k == k0) = false := by
      cases hk : k == k0
      · rfl
      · exfalso
        simp [List.lookup, hk] at h
    have h1 : rest.lookup k = none := by
      simpa [List.lookup, h0] using h
    have h2 : (k0 == k) = false := by
      apply beq_eq_false_iff_ne.mpr
      intro hc
      rw [beq_eq_false_iff_ne] at h0
      exact h0 hc.symm
    unfold setEntry
    rw [if_neg (by simp [h2])]
    simp [ih h1]

/-- Payment count of a state whose payment map gained a binding under a
fresh payment id, for an arbitrary mandate map. -/
theorem countFor_state_fresh (mid pid : String) (p : Payment)
    (M : List (String × Mandate)) (st : AP2State)
    (h : st.payments.lookup pid = none) :
    countFor mid { mandates := M, payments := setEntry pid p st.payments }
      = countFor mid st + (if (p.mandateId == mid) = true then 1 else 0) := by
  unfold countFor
  simp only []
  rw [setEntry_append pid p st.payments h, List.filter_append, List.length_append]
  congr 1
  cases hc : p.mandateId == mid <;> simp [List.filter, hc]

/-- A mandate no payment references has count zero. -/
theorem countFor_zero (mid : String) (st : AP2State)
    (h : ∀ e ∈ st.payments, (e.2.mandateId == mid) = false) : countFor mid st = 0 := by
  unfold countFor
  rw [List.length_eq_zero]
  apply List.filter_eq_nil_iff.mpr
  intro e he
  simp [h e he]

/-- createMandate preserves the C2 invariant when the generated id is
fresh. -/
theorem InvC2_create (cartId payerRef : Option String) (amount : Option ℚ)
    (currency : Option String) (ttl : Option Nat) (mandateId : String) (now : Nat)
    (st : AP2State) (hfresh : st.mandates.lookup mandateId = none) (hinv : InvC2 st) :
    InvC2 (createMandate cartId payerRef amount currency ttl mandateId now st).2 := by
  unfold createMandate
  split
  · split
    · exact hinv
    · constructor
      · intro mid0 m0 hlook
        by_cases heq : mid0 = mandateId
        · subst heq
          rw [lookup_setEntry_self] at hlook
          simp only [Option.some.injEq] at hlook
          subst hlook
          have hz : countFor mid0 st = 0 := by
            apply countFor_zero
            intro e he
            cases hc : e.2.mandateId == mid0
            · rfl
            · exfalso
              obtain ⟨m1, hm1, _⟩ := hinv.2 e he
              rw [beq_iff_eq.mp hc, hfresh] at hm1
              exact absurd hm1 (by simp)
          refine ⟨Or.inl rfl, ?_, fun _ => ?_⟩
          · show countFor mid0 st ≤ 1
            omega
          · show countFor mid0 st = 0
            exact hz
        · rw [lookup_setEntry_ne _ _ _ heq] at hlook
          exact hinv.1 mid0 m0 hlook
      · intro e he
        obtain ⟨m1, hm1, hs1⟩ := hinv.2 e he
        by_cases heq : e.2.mandateId = mandateId
        · rw [heq, hfresh] at hm1
          exact absurd hm1 (by simp)
        · exact ⟨m1, by rw [lookup_setEntry_ne _ _ _ heq]; exact hm1, hs1⟩
  · exact hinv

/-- processPayment preserves the C2 invariant when the generated payment
id is fresh. -/
theorem InvC2_pay (verify : String → String → String → Bool)
    (mandateId signature publicKey : Option String) (now : Nat)
    (paymentId txnRef : String) (st : AP2State)
    (hfresh : st.payments.lookup paymentId = none) (hinv : InvC2 st) :
    InvC2 (processPayment verify mandateId signature publicKey now paymentId txnRef st).2 := by
  unfold processPayment
  split
  · next mid sg pk =>
    split
    · exact hinv
    · split
      · exact hinv
      · next m hlook =>
        split
        · exact hinv
        · next hstat =>
          have hact : m.status = MStatus.active := not_ne_iff.mp hstat
          split
          · next httl =>
            constructor
            · intro mid0 m0 hlook0
              by_cases heq : mid0 = mid
              · subst heq
                rw [lookup_setEntry_self] at hlook0
                simp only [Option.some.injEq] at hlook0
                subst hlook0
                refine ⟨Or.inr (Or.inr rfl), ?_, fun habs => absurd habs (by simp)⟩
                show countFor mid0 st ≤ 1
                exact (hinv.1 mid0 m hlook).2.1
              · rw [lookup_setEntry_ne _ _ _ heq] at hlook0
                exact hinv.1 mid0 m0 hlook0
            · intro e he
              obtain ⟨m1, hm1, hs1⟩ := hinv.2 e he
              by_cases heq : e.2.mandateId = mid
              · rw [heq, hlook] at hm1
                simp only [Option.some.injEq] at hm1
                subst hm1
                exact absurd hact hs1
              · exact ⟨m1, by rw [lookup_setEntry_ne _ _ _ heq]; exact hm1, hs1⟩
          · next httl =>
            split
            · exact hinv
            · next hver =>
              have hcnt0 : countFor mid st = 0 := (hinv.1 mid m hlook).2.2 hact
              constructor
              · intro mid0 m0 hlook0
                by_cases heq : mid0 = mid
                · subst heq
                  rw [lookup_setEntry_self] at hlook0
                  simp only [Option.some.injEq] at hlook0
                  subst hlook0
                  refine ⟨Or.inr (Or.inl rfl), ?_, fun habs => absurd habs (by simp)⟩
                  rw [countFor_state_fresh _ _ _ _ _ hfresh]
                  simp [hcnt0]
                · rw [lookup_setEntry_ne _ _ _ heq] at hlook0
                  obtain ⟨hst1, hle1, hz1⟩ := hinv.1 mid0 m0 hlook0
                  refine ⟨hst1, ?_, fun hm0 => ?_⟩
                  · rw [countFor_state_fresh _ _ _ _ _ hfresh]
                    simp [beq_eq_false_iff_ne.mpr (Ne.symm heq), hle1]
                  · rw [countFor_state_fresh _ _ _ _ _ hfresh]
                    simp [beq_eq_false_iff_ne.mpr (Ne.symm heq), hz1 hm0]
              · intro e he
                have he2 : e ∈ setEntry paymentId
                    { paymentId := paymentId, mandateId := mid, status := PStatus.processing,
                      amount := m.amount, currency := m.currency, created := now,
                      updated := now, transactionRef := txnRef } st.payments := he
                rw [setEntry_append _ _ _ hfresh] at he2
                rcases List.mem_append.mp he2 with hold | hnew
                · obtain ⟨m1, hm1, hs1⟩ := hinv.2 e hold
                  by_cases heq : e.2.mandateId = mid
                  · rw [heq, hlook] at hm1
                    simp only [Option.some.injEq] at hm1
                    subst hm1
                    exact absurd hact hs1
                  · exact ⟨m1, by rw [lookup_setEntry_ne _ _ _ heq]; exact hm1, hs1⟩
                · simp only [List.mem_singleton] at hnew
                  subst hnew
                  refine ⟨_, lookup_setEntry_self _ _ _, ?_⟩
                  intro habs
                  exact absurd habs (by simp)
  · exact hinv

/-- The expiration timer body preserves the C2 invariant. -/
theorem InvC2_timer (mandateId : String) (st : AP2State) (hinv : InvC2 st) :
    InvC2 (expireMandate mandateId st) := by
  unfold expireMandate
  split
  · exact hinv
  · next m hlook =>
    split
    · next hact =>
      constructor
      · intro mid0 m0 hlook0
        by_cases heq : mid0 = mandateId
        · subst heq
          rw [lookup_setEntry_self] at hlook0
          simp only [Option.some.injEq] at hlook0
          subst hlook0
          refine ⟨Or.inr (Or.inr rfl), ?_, fun habs => absurd habs (by simp)⟩
          show countFor mid0 st ≤ 1
          exact (hinv.1 mid0 m hlook).2.1
        · rw [lookup_setEntry_ne _ _ _ heq] at hlook0
          exact hinv.1 mid0 m0 hlook0
      · intro e he
        obtain ⟨m1, hm1, hs1⟩ := hinv.2 e he
        by_cases heq : e.2.mandateId = mandateId
        · rw [heq, hlook] at hm1
          simp only [Option.some.injEq] at hm1
          subst hm1
          exact absurd hact hs1
        · exact ⟨m1, by rw [lookup_setEntry_ne _ _ _ heq]; exact hm1, hs1⟩
    · exact hinv

/-- Every settlement step preserves the C2 invariant. -/
theorem InvC2_step (s s' : AP2State) (h : StepR s s') (hinv : InvC2 s) : InvC2 s' := by
  cases h with
  | create cid pref amt cur ttl mid now st hfresh =>
    exact InvC2_create cid pref amt cur ttl mid now _ hfresh hinv
  | pay verify mid sg pk now pid txn st hfresh =>
    exact InvC2_pay verify mid sg pk now pid txn _ hfresh hinv
  | timer mid st => exact InvC2_timer mid _ hinv

/-- Every reachable settlement state satisfies the C2 invariant. -/
theorem InvC2_reach (s : AP2State) (h : Reach s) : InvC2 s := by
  unfold Reach at h
  induction h with
  | refl =>
    constructor
    · intro mid m hl
      exact absurd hl (by simp [initAP2, List.lookup])
    · intro e he
      exact absurd he (by simp [initAP2])
  | tail h1 h2 ih => exact InvC2_step _ _ h2 ih

/-- No single step restores a mandate that has left the active status;
its stored record is untouched. -/
theorem step_preserves_nonactive (s s' : AP2State) (h : StepR s s') (mid : String)
    (m : Mandate) (hlook : s.mandates.lookup mid = some m)
    (hna : m.status ≠ MStatus.active) : s'.mandates.lookup mid = some m := by
  cases h with
  | create cid pref amt cur ttl mid1 now st hfresh =>
    unfold createMandate
    split
    · split
      · exact hlook
      · have hne : mid ≠ mid1 := by
          intro hc
          rw [hc, hfresh] at hlook
          exact absurd hlook (by simp)
        show (setEntry mid1 _ _).lookup mid = some m
        rw [lookup_setEntry_ne _ _ _ hne]
        exact hlook
    · exact hlook
  | pay verify mandId sg0 pk0 now pid txn st hfresh =>
    unfold processPayment
    split
    · next mid1 sg pk =>
      split
      · exact hlook
      · split
        · exact hlook
        · next m1 hlook1 =>
          split
          · exact hlook
          · next hstat =>
            have hact1 : m1.status = MStatus.active := not_ne_iff.mp hstat
            have hne : mid ≠ mid1 := by
              intro hc
              rw [hc, hlook1] at hlook
              simp only [Option.some.injEq] at hlook
              subst hlook
              exact hna hact1
            split
            · show (setEntry mid1 _ _).lookup mid = some m
              rw [lookup_setEntry_ne _ _ _ hne]
              exact hlook
            · split
              · exact hlook
              · show (setEntry mid1 _ _).lookup mid = some m
                rw [lookup_setEntry_ne _ _ _ hne]
                exact hlook
    · exact hlook
  | timer mid1 st =>
    unfold expireMandate
    split
    · exact hlook
    · next m1 hlook1 =>
      split
      · next hact1 =>
        have hne : mid ≠ mid1 := by
          intro hc
          rw [hc, hlook1] at hlook
          simp only [Option.some.injEq] at hlook
          subst hlook
          exact hna hact1
        show (setEntry mid1 _ _).lookup mid = some m
        rw [lookup_setEntry_ne _ _ _ hne]
        exact hlook
      · exact hlook

/-- No sequence of steps restores a mandate that has left the active
status. -/
theorem rtc_preserves_nonactive (s s' : AP2State)
    (h : Relation.ReflTransGen StepR s s') (mid : String) (m : Mandate)
    (hlook : s.mandates.lookup mid = some m) (hna : m.status ≠ MStatus.active) :
    s'.mandates.lookup mid = some m := by
  induction h with
  | refl => exact hlook
  | tail h1 h2 ih => exact step_preserves_nonactive _ _ h2 mid m ih hna

/-- C2: in every reachable settlement state each stored mandate has one
of the statuses active, used, expired; is consumed by at most one
payment; and while active is consumed by none.  Moreover no step
sequence ever returns a mandate to active once it has left it, and the
scheduled expiration firing never overwrites a used mandate. -/
theorem mandate_invariant_C2 :
    (∀ s, Reach s → InvC2 s) ∧
    (∀ s s', Relation.ReflTransGen StepR s s' → ∀ mid m,
      s.mandates.lookup mid = some m → m.status ≠ MStatus.active →
      s'.mandates.lookup mid = some m) ∧
    (∀ st mid midT m, st.mandates.lookup mid = some m → m.status = MStatus.used →
      (expireMandate midT st).mandates.lookup mid = some m) :=
  ⟨fun s h => InvC2_reach s h,
   fun s s' h mid m hl hna => rtc_preserves_nonactive s s' h mid m hl hna,
   fun st mid midT m hl hu =>
     step_preserves_nonactive st _ (StepR.timer midT st) mid m hl (by simp [hu])⟩

/-- Witness for C2: after one concrete mandate creation from boot, the
freshly created active mandate has payment count zero. -/
theorem mandate_invariant_C2_witness : countFor ("m2") stW2 = 0 := by
  have hreach : Reach stW2 :=
    Relation.ReflTransGen.single
      (StepR.create (some ("c1")) (some ("bob")) (some 25) none (some 500) ("m2") 0 initAP2 rfl)
  have hinv := mandate_invariant_C2.1 stW2 hreach
  exact (hinv.1 ("m2") mandateW2 (by rfl)).2.2 rfl
